import Mathlib

/-!
Verification of the qovery-engine deployment core: the service model
(`src/cloud_provider/service.rs`), the generic database model
(`src/models/database.rs`) and the error boundary translation
(`src/errors/io.rs`), shallowly embedded in Lean.  External collaborator
calls (kubectl, helm, terraform, the template renderer, the filesystem)
are represented by explicit outcome parameters, and the side effects a
pipeline performs are collected in an explicit effect trace.
-/

/-- Cloud provider discriminator `crate::cloud_provider::Kind`
(variants observed in `src/io_models/router.rs`). -/
inductive Kind
  | Aws
  | Scw
  | Gcp
deriving DecidableEq, Repr

/-- Database engine discriminator, `DatabaseType` in `src/cloud_provider/service.rs`. -/
inductive DatabaseType
  | PostgreSQL
  | MongoDB
  | MySQL
  | Redis
deriving DecidableEq, Repr

/-- `impl ToString for DatabaseType` (src/cloud_provider/service.rs). -/
def DatabaseType.to_string : DatabaseType → String
  | .PostgreSQL => "PostgreSQL"
  | .MongoDB => "MongoDB"
  | .MySQL => "MySQL"
  | .Redis => "Redis"

/-- `ServiceType` in `src/cloud_provider/service.rs`. -/
inductive ServiceType
  | Application
  | Database (db_type : DatabaseType)
  | Router
deriving DecidableEq, Repr

/-- `ServiceType::name` (src/cloud_provider/service.rs). -/
def ServiceType.name : ServiceType → String
  | .Application => "Application"
  | .Database db_type => db_type.to_string ++ " database"
  | .Router => "Router"

/-- The slice of `Environment` the embedded code reads: its namespace. -/
structure Environment where
  «namespace» : String
deriving DecidableEq, Repr

/-- The slice of `DeploymentTarget` the embedded code reads. -/
structure DeploymentTarget where
  environment : Environment
deriving DecidableEq, Repr

/-- The data accessible through the `Service` trait of
`src/cloud_provider/service.rs` (identity, flags and the `Helm` /
`Terraform` capability accessors used by the orchestrator). -/
structure ServiceData where
  id : String
  name : String
  sanitized_name : String
  version : String
  publicly_accessible : Bool
  selector : Option String
  service_type : ServiceType
  helm_release_name : String
  helm_chart_dir : String
  helm_chart_values_dir : String
  helm_chart_external_name_service_dir : String
  terraform_common_resource_dir_path : String
  terraform_resource_dir_path : String
deriving DecidableEq, Repr

/-- `Service::fqdn` (src/cloud_provider/service.rs lines 85-93). -/
def Service.fqdn (s : ServiceData) (target : DeploymentTarget) (fqdn : String)
    (is_managed : Bool) : String :=
  match s.publicly_accessible with
  | true => fqdn
  | false =>
    match is_managed with
    | true => s.id ++ "-dns." ++ target.environment.«namespace» ++ ".svc.cluster.local"
    | false => s.sanitized_name ++ "." ++ target.environment.«namespace» ++ ".svc.cluster.local"

/-- The fields of the generic database model `Database<C, M, T>`
(src/models/database.rs) that the embedded functions read.  The mode
type parameter `M` is represented by the boolean `M_is_managed`
(`M::is_managed()`). -/
structure DatabaseData where
  id : String
  long_id : String
  name : String
  kube_name : String
  version : String
  fqdn : String
  fqdn_id : String
  total_cpus : String
  total_ram_in_mib : Nat
  total_disk_size_in_gb : Nat
  publicly_accessible : Bool
  private_port : Nat
  workspace_directory : String
  lib_root_directory : String
  M_is_managed : Bool
deriving DecidableEq, Repr

/-- `Database::kube_name` accessor (src/models/database.rs). -/
def Database.kube_name (db : DatabaseData) : String := db.kube_name

/-- `Database::id` accessor (src/models/database.rs). -/
def Database.id (db : DatabaseData) : String := db.id

/-- `Database::fqdn` (src/models/database.rs lines 233-241). -/
def Database.fqdn (db : DatabaseData) (target : DeploymentTarget) (fqdn : String) : String :=
  match db.publicly_accessible with
  | true => fqdn
  | false =>
    match db.M_is_managed with
    | true => Database.id db ++ "-dns." ++ target.environment.«namespace» ++ ".svc.cluster.local"
    | false => Database.kube_name db ++ "." ++ target.environment.«namespace» ++ ".svc.cluster.local"

/-- The FQDN formula exactly as the spec words it (§4.1): if publicly
accessible return the fallback unchanged; else if managed
`id ++ "-dns." ++ ns ++ ".svc.cluster.local"`; else
`sanitized_name ++ "." ++ ns ++ ".svc.cluster.local"`.  Used only to
compare the code's `fqdn` implementations against the spec. -/
def fqdnSpec (publicly_accessible : Bool) (fallback : String) (is_managed : Bool)
    (id sanitized_name ns : String) : String :=
  if publicly_accessible then fallback
  else if is_managed then id ++ "-dns." ++ ns ++ ".svc.cluster.local"
  else sanitized_name ++ "." ++ ns ++ ".svc.cluster.local"

/-- The apostrophe character, used to rebuild source message strings. -/
def apo : String := String.singleton (Char.ofNat 39)

/-- `errors::CommandError` (src/errors/mod.rs, not under src/).
Modelled from the spec: the underlying command failure, carrying a
sanitized message (`message_safe`) and optional full details that may
contain sensitive data (§3 EngineError, §7).  The field names are the
ones read by `src/errors/io.rs`. -/
structure CommandError where
  message_safe : String
  full_details : Option String
deriving DecidableEq, Repr

/-- Modelled from the spec: `CommandError::default()` (used by
`check_kubernetes_service_error` through `unwrap_or_default`), an empty
command error. -/
def CommandError.default : CommandError := { message_safe := "", full_details := none }

/-- The subset of the internal `errors::Tag` enumeration
(src/errors/mod.rs, not under src/) reachable from the embedded code.
Every variant listed here appears in the `From<errors::Tag>` match of
`src/errors/io.rs`. -/
inductive ErrorTag
  | Unknown
  | K8sServiceError
  | K8sPodIsNotReady
  | K8sCannotCreateNamespace
  | K8sCannotGetPVCs
  | CannotCopyFilesFromDirectoryToDirectory
  | HelmChartsUpgradeError
  | HelmChartUninstallError
  | DatabaseFailedToStartAfterSeveralRetries
  | TerraformErrorWhileExecutingPipeline
  | TerraformErrorWhileExecutingDestroyPipeline
  | TerraformConfigFileInvalidContent
  | InvalidEnginePayload
  | UnsupportedVersion
  | VersionNumberParsingError
  | CannotParseString
  | DatabaseError
  | CannotRetrieveClusterConfigFile
deriving DecidableEq, Repr

/-- `events::EventDetails` reduced to the identifiers the claims need;
the embedded code only threads it through unchanged. -/
structure EventDetails where
  execution_id : String
  stage : String
deriving DecidableEq, Repr

/-- `errors::EngineError` (src/errors/mod.rs, not under src/).
Modelled from the spec §3: `{ tag, user_log_message, underlying_error,
link, hint, event_details }`.  The field names are the ones read by
`src/errors/io.rs`. -/
structure EngineError where
  tag : ErrorTag
  event_details : EventDetails
  user_log_message : String
  underlying_error : Option CommandError
  link : Option String
  hint_message : Option String
deriving DecidableEq, Repr

/-- Modelled from the spec §7: every `EngineError::new_*` constructor
wraps a failure at the call site into the matching error kind,
preserving the original failure as the (possibly sensitive) underlying
detail; wrapping never discards the original cause. -/
def EngineError.new (tag : ErrorTag) (event_details : EventDetails)
    (user_log_message : String) (underlying_error : Option CommandError) : EngineError :=
  { tag, event_details, user_log_message, underlying_error, link := none, hint_message := none }

/-- Modelled from the spec: `EngineError::new_k8s_service_issue` — the
Kubernetes service error kind wrapping the given command error. -/
def EngineError.new_k8s_service_issue (event_details : EventDetails)
    (e : CommandError) : EngineError :=
  EngineError.new .K8sServiceError event_details "Unable to manage kubernetes service" (some e)

/-- Modelled from the spec §4.3 step 5: `EngineError::new_k8s_pod_not_ready`
— the generic pod-not-ready kind carrying the underlying wait error. -/
def EngineError.new_k8s_pod_not_ready (event_details : EventDetails)
    (selector : String) (ns : String) (e : CommandError) : EngineError :=
  EngineError.new .K8sPodIsNotReady event_details
    ("Pod with selector " ++ selector ++ " in namespace " ++ ns ++ " is not ready") (some e)

/-- Modelled from the spec: `EngineError::new_k8s_create_namespace`. -/
def EngineError.new_k8s_create_namespace (event_details : EventDetails)
    (ns : String) (e : CommandError) : EngineError :=
  EngineError.new .K8sCannotCreateNamespace event_details
    ("Error while trying to create namespace " ++ ns) (some e)

/-- Modelled from the spec: `EngineError::new_cannot_copy_files_from_one_directory_to_another`. -/
def EngineError.new_cannot_copy_files_from_one_directory_to_another
    (event_details : EventDetails) (from_dir to_dir : String) (e : CommandError) : EngineError :=
  EngineError.new .CannotCopyFilesFromDirectoryToDirectory event_details
    ("Error while trying to copy all files from " ++ from_dir ++ " to " ++ to_dir) (some e)

/-- Modelled from the spec §4.4: `EngineError::new_terraform_error_while_executing_pipeline`. -/
def EngineError.new_terraform_error_while_executing_pipeline
    (event_details : EventDetails) (e : CommandError) : EngineError :=
  EngineError.new .TerraformErrorWhileExecutingPipeline event_details
    "Error while executing terraform pipeline" (some e)

/-- Modelled from the spec §4.4: `EngineError::new_terraform_error_while_executing_destroy_pipeline`. -/
def EngineError.new_terraform_error_while_executing_destroy_pipeline
    (event_details : EventDetails) (e : CommandError) : EngineError :=
  EngineError.new .TerraformErrorWhileExecutingDestroyPipeline event_details
    "Error while executing terraform destroying pipeline" (some e)

/-- Modelled from the spec §4.4: `EngineError::new_terraform_database_config_mismatch`
— the `TerraformQoveryConfigMismatch`-class error raised when the
database terraform config file exists but cannot be parsed. -/
def EngineError.new_terraform_database_config_mismatch
    (event_details : EventDetails) (e : CommandError) : EngineError :=
  EngineError.new .TerraformConfigFileInvalidContent event_details
    "Error while checking database configuration generated by terraform" (some e)

/-- Modelled from the spec §4.4: `EngineError::new_database_failed_to_start_after_several_retries`. -/
def EngineError.new_database_failed_to_start_after_several_retries
    (event_details : EventDetails) (service_name_with_id : String) (db_type : String)
    (e : Option CommandError) : EngineError :=
  EngineError.new .DatabaseFailedToStartAfterSeveralRetries event_details
    ("Database " ++ db_type ++ " " ++ service_name_with_id ++ " failed to start after several retries") e

/-- Modelled from the spec §4.2: `EngineError::new_unsupported_version_error`. -/
def EngineError.new_unsupported_version_error (event_details : EventDetails)
    (product_name version : String) : EngineError :=
  EngineError.new .UnsupportedVersion event_details
    (product_name ++ " " ++ version ++ " version is not supported") none

/-- Modelled from the spec: `EngineError::new_version_number_parsing_error`. -/
def EngineError.new_version_number_parsing_error (event_details : EventDetails)
    (raw_version : String) (e : String) : EngineError :=
  EngineError.new .VersionNumberParsingError event_details
    ("Error while trying to parse version number " ++ raw_version)
    (some { message_safe := e, full_details := none })

/-- Modelled from the spec: `EngineError::new_invalid_engine_payload`. -/
def EngineError.new_invalid_engine_payload (event_details : EventDetails)
    (message : String) (underlying_error : Option CommandError) : EngineError :=
  EngineError.new .InvalidEnginePayload event_details message underlying_error

/-- Modelled from the spec: `EngineError::new_service_missing_storage`
(raised by the storage-size check when no single bound volume exists). -/
def EngineError.new_service_missing_storage (event_details : EventDetails)
    (service_long_id : String) : EngineError :=
  EngineError.new .DatabaseError event_details
    ("Service " ++ service_long_id ++ " has no storage") none

/-- Modelled from the spec: `EngineError::new_k8s_cannot_get_pvcs`. -/
def EngineError.new_k8s_cannot_get_pvcs (event_details : EventDetails)
    (ns : String) (e : CommandError) : EngineError :=
  EngineError.new .K8sCannotGetPVCs event_details
    ("Unable to get PVCs in namespace " ++ ns) (some e)

/-- Modelled from the spec: `EngineError::new_cannot_parse_string`. -/
def EngineError.new_cannot_parse_string (event_details : EventDetails)
    (raw : String) (e : String) : EngineError :=
  EngineError.new .CannotParseString event_details
    ("Cannot parse string " ++ raw) (some { message_safe := e, full_details := none })

/-- Modelled from the spec: `helm::to_engine_error` — translation of a
helm command failure into the helm error family. -/
def helm.to_engine_error (event_details : EventDetails) (e : CommandError) : EngineError :=
  EngineError.new .HelmChartsUpgradeError event_details "Helm command error" (some e)

/-- Modelled from the spec: `EngineError::new_helm_error` (uninstall path). -/
def EngineError.new_helm_error (event_details : EventDetails) (e : CommandError) : EngineError :=
  EngineError.new .HelmChartUninstallError event_details "Helm error" (some e)

/-- `io::CommandError` (src/errors/io.rs lines 5-10): the transport-safe
sanitized `{message, full_details}` pair. -/
structure IoCommandError where
  message : String
  full_details : String
deriving DecidableEq, Repr

/-- `impl From<errors::CommandError> for io::CommandError`
(src/errors/io.rs lines 12-19): keep the safe message, default the
missing full details to the empty string. -/
def IoCommandError.from (error : CommandError) : IoCommandError :=
  { message := error.message_safe, full_details := error.full_details.getD "" }

/-- The subset of `io::Tag` (src/errors/io.rs lines 21-220) reachable
from the embedded `ErrorTag` subset. -/
inductive IoTag
  | Unknown
  | K8sServiceError
  | K8sPodIsNotReady
  | K8sCannotCreateNamespace
  | K8sCannotGetPVCs
  | CannotCopyFilesFromDirectoryToDirectory
  | HelmChartsUpgradeError
  | HelmChartUninstallError
  | DatabaseFailedToStartAfterSeveralRetries
  | TerraformErrorWhileExecutingPipeline
  | TerraformErrorWhileExecutingDestroyPipeline
  | TerraformConfigFileInvalidContent
  | InvalidEnginePayload
  | UnsupportedVersion
  | VersionNumberParsingError
  | CannotParseString
  | DatabaseError
  | CannotRetrieveClusterConfigFile
deriving DecidableEq, Repr

/-- `impl From<errors::Tag> for io::Tag` (src/errors/io.rs lines
222-442) restricted to the embedded subset; on this subset the source
match maps every variant to the variant of the same name. -/
def IoTag.from : ErrorTag → IoTag
  | .Unknown => .Unknown
  | .K8sServiceError => .K8sServiceError
  | .K8sPodIsNotReady => .K8sPodIsNotReady
  | .K8sCannotCreateNamespace => .K8sCannotCreateNamespace
  | .K8sCannotGetPVCs => .K8sCannotGetPVCs
  | .CannotCopyFilesFromDirectoryToDirectory => .CannotCopyFilesFromDirectoryToDirectory
  | .HelmChartsUpgradeError => .HelmChartsUpgradeError
  | .HelmChartUninstallError => .HelmChartUninstallError
  | .DatabaseFailedToStartAfterSeveralRetries => .DatabaseFailedToStartAfterSeveralRetries
  | .TerraformErrorWhileExecutingPipeline => .TerraformErrorWhileExecutingPipeline
  | .TerraformErrorWhileExecutingDestroyPipeline => .TerraformErrorWhileExecutingDestroyPipeline
  | .TerraformConfigFileInvalidContent => .TerraformConfigFileInvalidContent
  | .InvalidEnginePayload => .InvalidEnginePayload
  | .UnsupportedVersion => .UnsupportedVersion
  | .VersionNumberParsingError => .VersionNumberParsingError
  | .CannotParseString => .CannotParseString
  | .DatabaseError => .DatabaseError
  | .CannotRetrieveClusterConfigFile => .CannotRetrieveClusterConfigFile

/-- `io::EngineError` (src/errors/io.rs lines 444-452). -/
structure IoEngineError where
  tag : IoTag
  user_log_message : String
  underlying_error : Option IoCommandError
  link : Option String
  hint_message : Option String
deriving DecidableEq, Repr

/-- `io::EngineError::from` (src/errors/io.rs lines 454-467): the
boundary translation keeps the tag (through `Tag::from`), keeps the safe
message, flattens the underlying detail to the sanitized pair, and
detaches the event details. -/
def IoEngineError.from (error : EngineError) : IoEngineError × EventDetails :=
  ({ tag := IoTag.from error.tag,
     user_log_message := error.user_log_message,
     underlying_error := error.underlying_error.map IoCommandError.from,
     link := error.link,
     hint_message := error.hint_message },
   error.event_details)

/-- The observable side effects a pipeline performs on its
collaborators (kubectl, helm, terraform, the renderer, the listeners and
the logger), collected in order as an explicit trace. -/
inductive Effect
  | render (src_dir dst_dir : String)
  | createNamespace (ns : String)
  | helmUpgrade (release_name : String) (set_values : List (String × String))
  | helmUninstall (release_name : String)
  | terraformApply (dir : String)
  | terraformDestroy (dir : String)
  | deletePod (ns pod_name : String)
  | deleteSecret (ns secret_name : String)
  | mkWorkspaceDir (subpath : String)
  | listenerDeploymentInProgress (msg : String)
  | listenerDeploymentError (msg : String)
  | listenerPauseInProgress (msg : String)
  | listenerPauseError (msg : String)
  | listenerDeleteInProgress (msg : String)
  | listenerDeleteError (msg : String)
  | logInfo (msg : String)
  | logError (msg : String)
  | logDebug (msg : String)
deriving DecidableEq, Repr

/-- `CheckAction` (src/cloud_provider/service.rs lines 1121-1125). -/
inductive CheckAction
  | Deploy
  | Pause
  | Delete
deriving DecidableEq, Repr

/-- Stand-in for Rust's `{:?}` Debug formatting of an `EngineError`
(the exact text is irrelevant to every claim). -/
def EngineError.debug_format (e : EngineError) : String := reprStr e

/-- `check_kubernetes_service_error` (src/cloud_provider/service.rs
lines 1127-1256).  `debug_logs` is the result of the collaborator call
`service.debug_logs(..)`. -/
def check_kubernetes_service_error (result : Except EngineError Unit) (s : ServiceData)
    (event_details : EventDetails) (debug_logs : List String)
    (action_verb : String) (action : CheckAction) :
    Except EngineError Unit × List Effect :=
  let message := action_verb ++ " " ++ s.service_type.name.toLower ++ " " ++ s.name
  let head_effects :=
    match action with
    | .Deploy => [Effect.listenerDeploymentInProgress message, Effect.logInfo message]
    | .Pause => [Effect.listenerPauseInProgress message, Effect.logInfo message]
    | .Delete => [Effect.listenerDeleteInProgress message, Effect.logInfo message]
  match result with
  | .error err =>
    let error_message := action_verb ++ " error " ++ s.service_type.name.toLower ++ " "
      ++ s.name ++ " : error => " ++ EngineError.debug_format err
    let log_message := action_verb ++ " error with " ++ s.service_type.name ++ " "
      ++ s.name ++ " , id: " ++ s.id
    let err_listener := fun (m : String) =>
      match action with
      | .Deploy => Effect.listenerDeploymentError m
      | .Pause => Effect.listenerPauseError m
      | .Delete => Effect.listenerDeleteError m
    let debug_logs_string :=
      if debug_logs.isEmpty then "<no debug logs>" else String.intercalate "\n" debug_logs
    (.error (EngineError.new_k8s_service_issue event_details
        (err.underlying_error.getD CommandError.default)),
     head_effects ++ [Effect.logError log_message, err_listener error_message,
       Effect.logDebug debug_logs_string, err_listener debug_logs_string])
  | .ok _ =>
    let ok_message := action_verb ++ " succeeded for " ++ s.service_type.name.toLower
      ++ " " ++ s.name
    let ok_listener :=
      match action with
      | .Deploy => Effect.listenerDeploymentInProgress ok_message
      | .Pause => Effect.listenerPauseInProgress ok_message
      | .Delete => Effect.listenerDeleteInProgress ok_message
    (.ok (), head_effects ++ [ok_listener])

/-- The tag of the error held by an orchestrator result, if any. -/
def resultErrorTag : Except EngineError Unit → Option ErrorTag
  | .error e => some e.tag
  | .ok _ => none

/-- A concrete application used as counterexample input for C2. -/
def svcC2 : ServiceData :=
  { id := "app1", name := "my-app", sanitized_name := "my-app", version := "1.0",
    publicly_accessible := false, selector := some "appId=app1",
    service_type := .Application, helm_release_name := "app1",
    helm_chart_dir := "lib/common/charts/app", helm_chart_values_dir := "lib/aws/chart_values/app",
    helm_chart_external_name_service_dir := "lib/common/charts/external-name-svc",
    terraform_common_resource_dir_path := "lib/aws/services/common",
    terraform_resource_dir_path := "lib/aws/services/app" }

/-- The slice of `io_models::Context` the embedded code reads. -/
structure Context where
  workspace_root_dir : String
  execution_id : String
  lib_root_dir : String
  resource_expiration_in_seconds : Option Nat
deriving DecidableEq, Repr

/-- Modelled from the spec §3/§4.1: `crate::fs::workspace_directory`
(not under src/) derives the workspace path deterministically from the
workspace root dir, the execution id, and the requested subpath. -/
def fs_workspace_directory_path (root_dir execution_id subpath : String) : String :=
  root_dir ++ "/.qovery-workspace/" ++ execution_id ++ "/" ++ subpath

/-- Modelled from the spec §4.2: `crate::fs::workspace_directory` can
fail when the directory cannot be created on disk; `fs_ok` stands for
the filesystem allowing the creation. -/
def fs_workspace_directory (fs_ok : Bool) (root_dir execution_id subpath : String) :
    Except Unit String :=
  if fs_ok then .ok (fs_workspace_directory_path root_dir execution_id subpath)
  else .error ()

/-- Modelled from the spec §3: `crate::utilities::to_short_id` (not
under src/) — the stable, deterministic short form of the long id. -/
def to_short_id (long_id : String) : String :=
  "z" ++ (String.replace long_id "-" "").take 8

/-- The data behind a `dyn DatabaseInstanceType` (src/models/database.rs
lines 32-37): its cloud-provider tag and its cloud-provider format. -/
structure DatabaseInstanceType where
  cloud_provider : Kind
  to_cloud_provider_format : String
deriving DecidableEq, Repr

/-- `DatabaseError` (src/models/database.rs lines 94-140). -/
inductive DatabaseError
  | InvalidConfig (msg : String)
  | UnsupportedManagedMode (database_type : DatabaseType) (provider : String)
  | DatabaseNotFound (database_type : DatabaseType) (database_id : String)
  | UnknownDatabaseVersion (database_type : DatabaseType) (database_version : String)
  | UnsupportedDatabaseVersion (database_type : DatabaseType) (database_version : String)
  | InvalidDatabaseInstance (requested_database_instance_type : String)
      (database_cloud_provider : Kind)
  | DatabaseInstanceTypeMismatchCloudProvider (database_instance_type_str : String)
      (database_cloud_provider : Kind)
  | DatabaseInstanceTypeMismatchDatabaseType (database_instance_type_str : String)
      (database_type : DatabaseType)
  | UnknownError (msg : String)
deriving DecidableEq, Repr

/-- `Database::check_instance_type_validity` (src/models/database.rs
lines 247-261). -/
def Database.check_instance_type_validity (database_instance_type : DatabaseInstanceType)
    (database_cloud_provider_kind : Kind) : Except DatabaseError Unit :=
  if database_instance_type.cloud_provider ≠ database_cloud_provider_kind then
    .error (.DatabaseInstanceTypeMismatchCloudProvider
      database_instance_type.to_cloud_provider_format database_cloud_provider_kind)
  else .ok ()

/-- `Database::new` (src/models/database.rs lines 166-223): first
validate the explicit instance type against the cloud provider type
parameter `C`, then create the workspace directory
`databases/{long_id}` (failure becomes `InvalidConfig`).  The effect
trace records the filesystem side effect; `cpu_validate` and
`memory_validate` are the identity defaults of the `DatabaseType` trait
(src/models/database.rs lines 79-91). -/
def Database.new (C_cloud_provider : Kind) (M_is_managed fs_ok : Bool)
    (context : Context) (long_id name kube_name version fqdn fqdn_id total_cpus : String)
    (total_ram_in_mib total_disk_size_in_gb : Nat)
    (database_instance_type : Option DatabaseInstanceType)
    (publicly_accessible : Bool) (private_port : Nat) :
    Except DatabaseError DatabaseData × List Effect :=
  match (database_instance_type.map
      (fun i => Database.check_instance_type_validity i C_cloud_provider)).getD (.ok ()) with
  | .error e => (.error e, [])
  | .ok _ =>
    match fs_workspace_directory fs_ok context.workspace_root_dir context.execution_id
        ("databases/" ++ long_id) with
    | .error _ =>
      (.error (.InvalidConfig ("Can" ++ apo ++ "t create workspace directory")),
       [.mkWorkspaceDir ("databases/" ++ long_id)])
    | .ok dir =>
      (.ok { id := to_short_id long_id, long_id, name, kube_name, version,
             fqdn, fqdn_id, total_cpus, total_ram_in_mib, total_disk_size_in_gb,
             publicly_accessible, private_port,
             workspace_directory := dir,
             lib_root_directory := context.lib_root_dir, M_is_managed },
       [.mkWorkspaceDir ("databases/" ++ long_id)])

/-- The `dir_root` match of `Service::workspace_directory`
(src/cloud_provider/service.rs lines 50-54). -/
def workspace_directory_dir_root : ServiceType → String
  | .Application => "applications"
  | .Database _ => "databases"
  | .Router => "routers"

/-- `Service::workspace_directory` (src/cloud_provider/service.rs lines
49-62); the source unwraps the filesystem result, so the embedding is
its value when the filesystem allows the creation. -/
def Service.workspace_directory (s : ServiceData) (context : Context) : String :=
  fs_workspace_directory_path context.workspace_root_dir context.execution_id
    (workspace_directory_dir_root s.service_type ++ "/" ++ s.name)

/-- The `requests` map of a PVC resource spec reduced to its `storage`
entry, the only key `get_database_with_invalid_storage_size` reads. -/
structure ResourceRequests where
  storage : String
deriving DecidableEq, Repr

/-- `PersistentVolumeClaim.spec.resources` slice. -/
structure VolumeResources where
  requests : Option ResourceRequests
deriving DecidableEq, Repr

/-- `PersistentVolumeClaim.spec` slice. -/
structure PvcSpec where
  resources : Option VolumeResources
deriving DecidableEq, Repr

/-- `PersistentVolumeClaim.metadata` slice. -/
structure PvcMetadata where
  name : Option String
deriving DecidableEq, Repr

/-- The `k8s_openapi` `PersistentVolumeClaim` slice read by
`get_database_with_invalid_storage_size`. -/
structure Pvc where
  metadata : PvcMetadata
  spec : Option PvcSpec
deriving DecidableEq, Repr

/-- `InvalidPVCStorage` (crate::cloud_provider::models, fields as
constructed in src/models/database.rs lines 555-558). -/
structure InvalidPVCStorage where
  pvc_name : String
  required_disk_size_in_gib : Nat
deriving DecidableEq, Repr

/-- `InvalidStatefulsetStorage` (crate::cloud_provider::models, fields
as constructed in src/models/database.rs lines 550-559). -/
structure InvalidStatefulsetStorage where
  service_type : ServiceType
  service_id : String
  statefulset_selector : String
  statefulset_name : String
  invalid_pvcs : List InvalidPVCStorage
deriving DecidableEq, Repr

/-- `Database::kube_label_selector` (src/models/database.rs lines 225-227). -/
def Database.kube_label_selector (db : DatabaseData) : String :=
  "qovery.com/service-id=" ++ db.long_id

/-- `get_database_with_invalid_storage_size` (src/models/database.rs
lines 498-580).  The collaborator reads are explicit inputs:
`sts_lookup` is the result of `get_service_statefulset_name_and_volumes`
(the statefulset name and its volume claims), `extract_volume_size` is
`crate::unit_conversion::extract_volume_size`, and `pvc_lookup` is the
result of `kube_get_resources_by_selector::<PersistentVolumeClaim>`.
The function issues no mutating collaborator call: it only reads. -/
def get_database_with_invalid_storage_size (db : DatabaseData) (db_type : DatabaseType)
    (sts_lookup : Except EngineError (String × Option (List Pvc)))
    (extract_volume_size : String → Except String Nat)
    (pvc_lookup : Except CommandError (List Pvc))
    (ns : String) (event_details : EventDetails) :
    Except EngineError (Option InvalidStatefulsetStorage) :=
  match sts_lookup with
  | .error e => .error e
  | .ok (statefulset_name, statefulset_volumes) =>
    let storage_err := EngineError.new_service_missing_storage event_details db.long_id
    match statefulset_volumes with
    | none => .error storage_err
    | some volumes =>
      if volumes.length > 1 then .error storage_err
      else
        match volumes.head? with
        | none => .error storage_err
        | some volume =>
          match volume.spec with
          | none => .ok none
          | some spec =>
            match spec.resources with
            | none => .ok none
            | some resources =>
              match resources.requests with
              | none => .ok none
              | some requests =>
                match extract_volume_size requests.storage with
                | .error e =>
                  .error (EngineError.new_cannot_parse_string event_details
                    requests.storage e)
                | .ok size =>
                  if db.total_disk_size_in_gb > size then
                    match pvc_lookup with
                    | .error e =>
                      .error (EngineError.new_k8s_cannot_get_pvcs event_details ns e)
                    | .ok items =>
                      match items.head? with
                      | some pvc =>
                        match pvc.metadata.name with
                        | some pvc_name =>
                          .ok (some
                            { service_type := .Database db_type,
                              service_id := db.long_id,
                              statefulset_selector := Database.kube_label_selector db,
                              statefulset_name,
                              invalid_pvcs := [{ pvc_name := pvc_name,
                                                 required_disk_size_in_gib :=
                                                   db.total_disk_size_in_gb }] })
                        | none => .ok none
                      | none => .ok none
                  else if db.total_disk_size_in_gb < size then
                    .error (EngineError.new_invalid_engine_payload event_details
                      ("new storage size (" ++ toString db.total_disk_size_in_gb
                        ++ ") should be equal or greater than actual size ("
                        ++ toString size ++ ")") none)
                  else .ok none

/-- `KubernetesPodStatusPhase` (crate::cmd::structs), the phases a pod
can report. -/
inductive KubernetesPodStatusPhase
  | Pending
  | Running
  | Succeeded
  | Failed
  | Unknown
deriving DecidableEq, Repr

/-- The pod metadata slice `delete_pending_service` reads. -/
structure PodMetadata where
  name : String
  «namespace» : String
deriving DecidableEq, Repr

/-- The pod status slice `delete_pending_service` reads. -/
structure PodStatus where
  phase : KubernetesPodStatusPhase
deriving DecidableEq, Repr

/-- A Kubernetes pod as listed by `kubectl_exec_get_pods`. -/
structure Pod where
  metadata : PodMetadata
  status : PodStatus
deriving DecidableEq, Repr

/-- The pod loop of `delete_pending_service`
(src/cloud_provider/service.rs lines 1402-1413): walk the listed pods in
order; delete every pod whose status phase is `Pending`, stopping with a
`K8sServiceError` at the first failed deletion; pods in any other phase
are skipped (no effect recorded for them). -/
def delete_pending_pods (delete_pod : Pod → Except CommandError Unit)
    (event_details : EventDetails) :
    List Pod → Except EngineError Unit × List Effect
  | [] => (.ok (), [])
  | p :: rest =>
    if p.status.phase = .Pending then
      match delete_pod p with
      | .error e =>
        (.error (EngineError.new_k8s_service_issue event_details e),
         [.deletePod p.metadata.«namespace» p.metadata.name])
      | .ok _ =>
        let r := delete_pending_pods delete_pod event_details rest
        (r.1, .deletePod p.metadata.«namespace» p.metadata.name :: r.2)
    else delete_pending_pods delete_pod event_details rest

/-- `delete_pending_service` (src/cloud_provider/service.rs lines
1390-1419).  `pods` is the result of the `kubectl_exec_get_pods`
collaborator call for the service's selector and `delete_pod` the
per-pod result of `kubectl_exec_delete_pod`; a listing failure is
returned as `K8sServiceError`. -/
def delete_pending_service (pods : Except CommandError (List Pod))
    (delete_pod : Pod → Except CommandError Unit) (event_details : EventDetails) :
    Except EngineError Unit × List Effect :=
  match pods with
  | .error e => (.error (EngineError.new_k8s_service_issue event_details e), [])
  | .ok items => delete_pending_pods delete_pod event_details items

/-- `Service::name_with_id` (src/cloud_provider/service.rs lines 43-45). -/
def Service.name_with_id (s : ServiceData) : String :=
  s.name ++ " (" ++ s.id ++ ")"

/-- The outcome of every external collaborator call
`deploy_stateless_service` makes, one field per call site, in source
order. -/
structure StatelessOutcomes where
  tera_context : Except EngineError Unit
  render_chart : Except CommandError Unit
  kubeconfig : Except EngineError String
  create_namespace : Except CommandError Unit
  helm_new : Except CommandError Unit
  helm_upgrade : Except CommandError Unit
  pods : Except CommandError (List Pod)
  delete_pod : Pod → Except CommandError Unit
  pod_ready : Except CommandError (Option Bool)

/-- `deploy_stateless_service` (src/cloud_provider/service.rs lines
384-479): render the chart, ensure the namespace, helm-upgrade, delete
pending pods, poll readiness; each failure is wrapped at its call site.
Note the readiness poll result is only `map_err`-wrapped here: an `Ok`
verdict — even `Ok(Some(false))` — passes. -/
def deploy_stateless_service (o : StatelessOutcomes) (s : ServiceData)
    (context : Context) (environment : Environment) (event_details : EventDetails) :
    Except EngineError Unit × List Effect :=
  let workspace_dir := Service.workspace_directory s context
  match o.tera_context with
  | .error e => (.error e, [])
  | .ok _ =>
    let effs1 := [Effect.render s.helm_chart_dir workspace_dir]
    match o.render_chart with
    | .error e =>
      (.error (EngineError.new_cannot_copy_files_from_one_directory_to_another
        event_details s.helm_chart_dir workspace_dir e), effs1)
    | .ok _ =>
      match o.kubeconfig with
      | .error e => (.error e, effs1)
      | .ok _ =>
        let effs2 := effs1 ++ [Effect.createNamespace environment.«namespace»]
        match o.create_namespace with
        | .error e =>
          (.error (EngineError.new_k8s_create_namespace event_details
            environment.«namespace» e), effs2)
        | .ok _ =>
          match o.helm_new with
          | .error e => (.error (helm.to_engine_error event_details e), effs2)
          | .ok _ =>
            let effs3 := effs2 ++ [Effect.helmUpgrade s.helm_release_name []]
            match o.helm_upgrade with
            | .error e => (.error (helm.to_engine_error event_details e), effs3)
            | .ok _ =>
              let dp := delete_pending_service o.pods o.delete_pod event_details
              match dp.1 with
              | .error e => (.error e, effs3 ++ dp.2)
              | .ok _ =>
                match o.pod_ready with
                | .error e =>
                  (.error (EngineError.new_k8s_pod_not_ready event_details
                    (s.selector.getD "") environment.«namespace» e), effs3 ++ dp.2)
                | .ok _ => (.ok (), effs3 ++ dp.2)

/-- `DatabaseTerraformConfig` (src/cloud_provider/service.rs lines
574-584): the endpoint description generated by Terraform. -/
structure DatabaseTerraformConfig where
  target_id : String
  target_hostname : String
  target_fqdn_id : String
  target_fqdn : String
deriving DecidableEq, Repr

/-- `DatabaseTerraformConfigError` (src/cloud_provider/service.rs lines
586-589). -/
inductive DatabaseTerraformConfigError
  | FileDoesntExist (e : CommandError)
  | FileCannotBeParsed (e : CommandError)
deriving DecidableEq, Repr

/-- The outcome of every external collaborator call
`deploy_stateful_service` makes, one field per call site, in source
order.  `terraform_config` is the result of
`get_database_terraform_config` on `{workspace}/database-tf-config.json`
(src/cloud_provider/service.rs lines 591-617: `FileDoesntExist` when the
file cannot be opened, `FileCannotBeParsed` when its JSON is invalid). -/
structure StatefulOutcomes where
  tera_context : Except EngineError Unit
  kubeconfig : Except EngineError String
  create_namespace : Except CommandError Unit
  helm_new : Except CommandError Unit
  render_terraform_common : Except CommandError Unit
  render_terraform_resource : Except CommandError Unit
  render_external_name : Except CommandError Unit
  terraform_apply : Except CommandError Unit
  terraform_config : Except DatabaseTerraformConfigError DatabaseTerraformConfig
  render_chart : Except CommandError Unit
  render_values : Except CommandError Unit
  helm_upgrade_external : Except CommandError Unit
  helm_upgrade : Except CommandError Unit
  pods : Except CommandError (List Pod)
  delete_pod : Pod → Except CommandError Unit
  pod_ready : Except CommandError (Option Bool)

/-- The `--set` values of the ExternalName chart installed by the
managed branch (src/cloud_provider/service.rs lines 732-753). -/
def external_name_chart_values (c : DatabaseTerraformConfig) (s : ServiceData) :
    List (String × String) :=
  [("target_hostname", c.target_hostname),
   ("source_fqdn", c.target_fqdn),
   ("app_id", s.id),
   ("service_name", c.target_fqdn_id),
   ("publicly_accessible", toString s.publicly_accessible)]

/-- `deploy_stateful_service` (src/cloud_provider/service.rs lines
619-893).  The managed branch renders the two Terraform module sets and
the ExternalName chart, runs Terraform apply, then branches on the
generated JSON config; the container branch mirrors the stateless
pipeline but reports a non-ready verdict as
`DatabaseFailedToStartAfterSeveralRetries`. -/
def deploy_stateful_service (is_managed : Bool) (o : StatefulOutcomes)
    (s : ServiceData) (context : Context) (environment : Environment)
    (event_details : EventDetails) : Except EngineError Unit × List Effect :=
  let workspace_dir := Service.workspace_directory s context
  match o.tera_context with
  | .error e => (.error e, [])
  | .ok _ =>
    match o.kubeconfig with
    | .error e => (.error e, [])
    | .ok _ =>
      let effs1 := [Effect.createNamespace environment.«namespace»]
      match o.create_namespace with
      | .error e =>
        (.error (EngineError.new_k8s_create_namespace event_details
          environment.«namespace» e), effs1)
      | .ok _ =>
        match o.helm_new with
        | .error e => (.error (helm.to_engine_error event_details e), effs1)
        | .ok _ =>
          if is_managed then
            let effs2 := effs1 ++ [Effect.logInfo ("Deploying managed "
              ++ s.service_type.name ++ " `" ++ Service.name_with_id s ++ "`")]
            match o.tera_context with
            | .error e => (.error e, effs2)
            | .ok _ =>
              let effs3 := effs2
                ++ [Effect.render s.terraform_common_resource_dir_path workspace_dir]
              match o.render_terraform_common with
              | .error e =>
                (.error (EngineError.new_cannot_copy_files_from_one_directory_to_another
                  event_details s.terraform_common_resource_dir_path workspace_dir e),
                 effs3)
              | .ok _ =>
                let effs4 := effs3
                  ++ [Effect.render s.terraform_resource_dir_path workspace_dir]
                match o.render_terraform_resource with
                | .error e =>
                  (.error
                    (EngineError.new_cannot_copy_files_from_one_directory_to_another
                      event_details s.terraform_resource_dir_path workspace_dir e),
                   effs4)
                | .ok _ =>
                  let external_svc_dir := workspace_dir ++ "/" ++ "external-name-svc"
                  let effs5 := effs4 ++ [Effect.render
                    s.helm_chart_external_name_service_dir external_svc_dir]
                  match o.render_external_name with
                  | .error e =>
                    (.error
                      (EngineError.new_cannot_copy_files_from_one_directory_to_another
                        event_details s.helm_chart_external_name_service_dir
                        external_svc_dir e),
                     effs5)
                  | .ok _ =>
                    let effs6 := effs5 ++ [Effect.terraformApply workspace_dir]
                    match o.terraform_apply with
                    | .error e =>
                      (.error (EngineError.new_terraform_error_while_executing_pipeline
                        event_details e), effs6)
                    | .ok _ =>
                      match o.terraform_config with
                      | .ok database_config =>
                        let effs7 := effs6 ++ [Effect.helmUpgrade
                          (database_config.target_id ++ "-externalname")
                          (external_name_chart_values database_config s)]
                        match o.helm_upgrade_external with
                        | .error e =>
                          (.error (helm.to_engine_error event_details e), effs7)
                        | .ok _ => (.ok (), effs7)
                      | .error (.FileDoesntExist _) => (.ok (), effs6)
                      | .error (.FileCannotBeParsed e) =>
                        (.error (EngineError.new_terraform_database_config_mismatch
                          event_details e), effs6)
          else
            let effs2 := effs1 ++ [Effect.logInfo ("Deploying containerized "
              ++ s.service_type.name ++ " `" ++ Service.name_with_id s
              ++ "` on Kubernetes cluster")]
            match o.tera_context with
            | .error e => (.error e, effs2)
            | .ok _ =>
              match o.kubeconfig with
              | .error e => (.error e, effs2)
              | .ok _ =>
                let effs3 := effs2 ++ [Effect.render s.helm_chart_dir workspace_dir]
                match o.render_chart with
                | .error e =>
                  (.error
                    (EngineError.new_cannot_copy_files_from_one_directory_to_another
                      event_details s.helm_chart_dir workspace_dir e), effs3)
                | .ok _ =>
                  let effs4 := effs3
                    ++ [Effect.render s.helm_chart_values_dir workspace_dir]
                  match o.render_values with
                  | .error e =>
                    (.error
                      (EngineError.new_cannot_copy_files_from_one_directory_to_another
                        event_details s.helm_chart_values_dir workspace_dir e), effs4)
                  | .ok _ =>
                    let effs5 := effs4
                      ++ [Effect.createNamespace environment.«namespace»]
                    match o.create_namespace with
                    | .error e =>
                      (.error (EngineError.new_k8s_create_namespace event_details
                        environment.«namespace» e), effs5)
                    | .ok _ =>
                      match o.helm_new with
                      | .error e =>
                        (.error (helm.to_engine_error event_details e), effs5)
                      | .ok _ =>
                        let effs6 := effs5
                          ++ [Effect.helmUpgrade s.helm_release_name []]
                        match o.helm_upgrade with
                        | .error e =>
                          (.error (helm.to_engine_error event_details e), effs6)
                        | .ok _ =>
                          let dp := delete_pending_service o.pods o.delete_pod
                            event_details
                          match dp.1 with
                          | .error e => (.error e, effs6 ++ dp.2)
                          | .ok _ =>
                            match o.pod_ready with
                            | .ok (some true) => (.ok (), effs6 ++ dp.2)
                            | .ok (some false) =>
                              (.error
                                (EngineError.new_database_failed_to_start_after_several_retries
                                  event_details (Service.name_with_id s)
                                  s.service_type.name none), effs6 ++ dp.2)
                            | .ok none =>
                              (.error
                                (EngineError.new_database_failed_to_start_after_several_retries
                                  event_details (Service.name_with_id s)
                                  s.service_type.name none), effs6 ++ dp.2)
                            | .error e =>
                              (.error
                                (EngineError.new_database_failed_to_start_after_several_retries
                                  event_details (Service.name_with_id s)
                                  s.service_type.name (some e)), effs6 ++ dp.2)

/-- `get_tfstate_suffix` (src/cloud_provider/service.rs lines 1379-1381). -/
def get_tfstate_suffix (s : ServiceData) : String := s.id

/-- `get_tfstate_name` (src/cloud_provider/service.rs lines 1386-1388):
the Kubernetes secret holding a service's Terraform state. -/
def get_tfstate_name (s : ServiceData) : String := "tfstate-default-" ++ s.id

/-- `delete_terraform_tfstate_secret` (src/cloud_provider/service.rs
lines 1103-1119): fetch the kubeconfig, then issue the secret deletion
whose own result is discarded (`let _ =`); the `delete_secret` outcome
parameter is therefore never inspected. -/
def delete_terraform_tfstate_secret (kubeconfig : Except EngineError String)
    (delete_secret : Except CommandError Unit) (ns secret_name : String) :
    Except EngineError Unit × List Effect :=
  match kubeconfig with
  | .error e => (.error e, [])
  | .ok _ => (.ok (), [.deleteSecret ns secret_name])

/-- `helm_uninstall_release` (src/cloud_provider/service.rs lines
1360-1377). -/
def helm_uninstall_release (kubeconfig : Except EngineError String)
    (helm_new helm_uninstall : Except CommandError Unit)
    (helm_release_name : String) (event_details : EventDetails) :
    Except EngineError Unit × List Effect :=
  match kubeconfig with
  | .error e => (.error e, [])
  | .ok _ =>
    match helm_new with
    | .error e => (.error (EngineError.new_helm_error event_details e), [])
    | .ok _ =>
      match helm_uninstall with
      | .error e =>
        (.error (EngineError.new_helm_error event_details e),
         [.helmUninstall helm_release_name])
      | .ok _ => (.ok (), [.helmUninstall helm_release_name])

/-- The outcome of every external collaborator call
`delete_stateful_service` makes, one field per call site, in source
order.  The managed branch renders the external-name chart twice (into
`{workspace}/external-name-svc` and into the workspace itself,
src/cloud_provider/service.rs lines 936-961). -/
structure DeleteStatefulOutcomes where
  tera_context : Except EngineError Unit
  render_terraform_common : Except CommandError Unit
  render_terraform_resource : Except CommandError Unit
  render_external_name_svc : Except CommandError Unit
  render_external_name_workspace : Except CommandError Unit
  terraform_destroy : Except CommandError Unit
  kubeconfig : Except EngineError String
  delete_secret : Except CommandError Unit
  helm_new : Except CommandError Unit
  helm_uninstall : Except CommandError Unit

/-- `delete_stateful_service` (src/cloud_provider/service.rs lines
895-988).  Managed: re-render the template sets, run Terraform destroy;
on success delete the tfstate secret best-effort (its result is
discarded with `let _ =`); on failure return the Terraform destroy
error.  Container: uninstall the Helm release. -/
def delete_stateful_service (is_managed : Bool) (o : DeleteStatefulOutcomes)
    (s : ServiceData) (context : Context) (environment : Environment)
    (event_details : EventDetails) : Except EngineError Unit × List Effect :=
  if is_managed then
    let workspace_dir := Service.workspace_directory s context
    match o.tera_context with
    | .error e => (.error e, [])
    | .ok _ =>
      let effs1 := [Effect.render s.terraform_common_resource_dir_path workspace_dir]
      match o.render_terraform_common with
      | .error e =>
        (.error (EngineError.new_cannot_copy_files_from_one_directory_to_another
          event_details s.terraform_common_resource_dir_path workspace_dir e), effs1)
      | .ok _ =>
        let effs2 := effs1 ++ [Effect.render s.terraform_resource_dir_path workspace_dir]
        match o.render_terraform_resource with
        | .error e =>
          (.error (EngineError.new_cannot_copy_files_from_one_directory_to_another
            event_details s.terraform_resource_dir_path workspace_dir e), effs2)
        | .ok _ =>
          let external_svc_dir := workspace_dir ++ "/" ++ "external-name-svc"
          let effs3 := effs2
            ++ [Effect.render s.helm_chart_external_name_service_dir external_svc_dir]
          match o.render_external_name_svc with
          | .error e =>
            (.error (EngineError.new_cannot_copy_files_from_one_directory_to_another
              event_details s.helm_chart_external_name_service_dir external_svc_dir e),
             effs3)
          | .ok _ =>
            let effs4 := effs3
              ++ [Effect.render s.helm_chart_external_name_service_dir workspace_dir]
            match o.render_external_name_workspace with
            | .error e =>
              (.error (EngineError.new_cannot_copy_files_from_one_directory_to_another
                event_details s.helm_chart_external_name_service_dir workspace_dir e),
               effs4)
            | .ok _ =>
              let effs5 := effs4 ++ [Effect.terraformDestroy workspace_dir]
              match o.terraform_destroy with
              | .ok _ =>
                let ds := delete_terraform_tfstate_secret o.kubeconfig o.delete_secret
                  environment.«namespace» (get_tfstate_name s)
                (.ok (),
                 effs5 ++ [Effect.logInfo "Deleting secret containing tfstates"] ++ ds.2)
              | .error e =>
                let engine_err := EngineError.new_terraform_error_while_executing_destroy_pipeline
                  event_details e
                (.error engine_err,
                 effs5 ++ [Effect.logError engine_err.user_log_message])
  else
    helm_uninstall_release o.kubeconfig o.helm_new o.helm_uninstall
      s.helm_release_name event_details

/-- Modelled from the spec §3/§4.2: `VersionsNumber`
(crate::models::types, not under src/) — a dotted numeric version
number; `from_str` reads the leading dotted numeric components and fails
when the first component is not a number. -/
structure VersionsNumber where
  major : Nat
  minor : Option Nat
  patch : Option Nat
deriving DecidableEq, Repr

/-- Split a character list on the dot separator (helper of the
spec-modelled `VersionsNumber::from_str`). -/
def splitOnDot : List Char → List (List Char)
  | [] => [[]]
  | c :: cs =>
    let r := splitOnDot cs
    if c = '.' then [] :: r
    else
      match r with
      | [] => [[c]]
      | g :: gs => (c :: g) :: gs

/-- Digit-string accumulator (helper of the spec-modelled
`VersionsNumber::from_str`). -/
def charsToNatAux : List Char → Nat → Option Nat
  | [], acc => some acc
  | c :: cs, acc =>
    if c.isDigit then charsToNatAux cs (acc * 10 + (c.toNat - 48))
    else none

/-- Parse a non-empty digit string (helper of the spec-modelled
`VersionsNumber::from_str`). -/
def charsToNat? : List Char → Option Nat
  | [] => none
  | cs => charsToNatAux cs 0

/-- Modelled from the spec: `VersionsNumber::from_str` — read the
leading dotted numeric components; fail when the first component is not
a number. -/
def VersionsNumber.from_str (s : String) : Except String VersionsNumber :=
  match splitOnDot s.data with
  | [] => .error s
  | maj :: rest =>
    match charsToNat? maj with
    | none => .error s
    | some m =>
      .ok ⟨m, rest.head?.bind charsToNat?, (rest.drop 1).head?.bind charsToNat?⟩

/-- `ServiceVersionCheckResult` (src/cloud_provider/service.rs lines
990-1016). -/
structure ServiceVersionCheckResult where
  requested_version : VersionsNumber
  matched_version : VersionsNumber
  message : Option String
deriving DecidableEq, Repr

/-- The backtick character, used to rebuild source message strings. -/
def btick : String := String.singleton (Char.ofNat 96)

/-- `check_service_version` (src/cloud_provider/service.rs lines
1018-1101).  `result` is the per-engine version resolution outcome.  On
`Ok`, the requested and matched version strings are parsed into
`VersionsNumber`s (a parse failure becomes `VersionNumberParsingError`)
and the returned result carries a message exactly when the two strings
differ; on `Err`, a `deployment_error` listener notification is emitted
before the `UnsupportedVersion` error is returned. -/
def check_service_version (result : Except CommandError String) (s : ServiceData)
    (event_details : EventDetails) :
    Except EngineError ServiceVersionCheckResult × List Effect :=
  match result with
  | .ok version =>
    if s.version ≠ version then
      let message := s.service_type.name ++ " version " ++ btick ++ s.version ++ btick
        ++ " has been requested by the user; but matching version is " ++ btick
        ++ version ++ btick
      let effs := [Effect.logInfo message, Effect.listenerDeploymentInProgress message]
      match VersionsNumber.from_str s.version with
      | .error e =>
        (.error (EngineError.new_version_number_parsing_error event_details s.version e),
         effs)
      | .ok requested_version =>
        match VersionsNumber.from_str version with
        | .error e =>
          (.error (EngineError.new_version_number_parsing_error event_details version e),
           effs)
        | .ok matched_version =>
          (.ok { requested_version, matched_version, message := some message }, effs)
    else
      match VersionsNumber.from_str s.version with
      | .error e =>
        (.error (EngineError.new_version_number_parsing_error event_details s.version e),
         [])
      | .ok requested_version =>
        match VersionsNumber.from_str version with
        | .error e =>
          (.error (EngineError.new_version_number_parsing_error event_details version e),
           [])
        | .ok matched_version =>
          (.ok { requested_version, matched_version, message := none }, [])
  | .error _err =>
    let message := s.service_type.name ++ " version " ++ s.version ++ " is not supported!"
    let error := EngineError.new_unsupported_version_error event_details
      s.service_type.name s.version
    (.error error, [Effect.listenerDeploymentError message,
      Effect.logError error.user_log_message])

/-- A fully successful stateful-deployment outcome used as concrete
witness input. -/
def outC5 : StatefulOutcomes :=
  { tera_context := .ok (), kubeconfig := .ok "kubeconfig", create_namespace := .ok (),
    helm_new := .ok (), render_terraform_common := .ok (),
    render_terraform_resource := .ok (), render_external_name := .ok (),
    terraform_apply := .ok (),
    terraform_config := .ok ⟨"dbid", "db.host.internal", "fqdn-id", "db.example.com"⟩,
    render_chart := .ok (), render_values := .ok (),
    helm_upgrade_external := .ok (), helm_upgrade := .ok (),
    pods := .ok [], delete_pod := fun _ => .ok (), pod_ready := .ok (some true) }

/-- A containerized stateful-deployment outcome whose readiness poll
reports `Ok(Some(false))`, used as concrete witness input. -/
def outC6 : StatefulOutcomes :=
  { outC5 with pod_ready := .ok (some false) }

/-- A stateless-deployment outcome whose readiness poll fails, used as
concrete witness input. -/
def soutC6 : StatelessOutcomes :=
  { tera_context := .ok (), render_chart := .ok (), kubeconfig := .ok "kubeconfig",
    create_namespace := .ok (), helm_new := .ok (), helm_upgrade := .ok (),
    pods := .ok [], delete_pod := fun _ => .ok (),
    pod_ready := .error ⟨"wait timeout", none⟩ }

/-- A service requesting the non-numeric version string `latest`, used
as concrete counterexample input for the version check. -/
def svcC7 : ServiceData :=
  { svcC2 with version := "latest" }

/-- A fully successful managed-delete outcome used as concrete witness
input. -/
def outC8 : DeleteStatefulOutcomes :=
  { tera_context := .ok (), render_terraform_common := .ok (),
    render_terraform_resource := .ok (), render_external_name_svc := .ok (),
    render_external_name_workspace := .ok (), terraform_destroy := .ok (),
    kubeconfig := .ok "kubeconfig", delete_secret := .error ⟨"secret not found", none⟩,
    helm_new := .ok (), helm_uninstall := .ok () }

-- ===================== THEOREMS =====================

/-- C1: both `Service::fqdn` and the database model's own `fqdn` compute
the spec's formula: the fallback FQDN unchanged when publicly
accessible, `id ++ "-dns." ++ ns ++ ".svc.cluster.local"` when managed, and
`sanitized ++ "." ++ ns ++ ".svc.cluster.local"` otherwise, where the
database's sanitized name is its `kube_name` (the spec's §3 defines
`kube_name` as the sanitized name). -/
theorem fqdn_matches_spec_everywhere (s : ServiceData) (db : DatabaseData)
    (target : DeploymentTarget) (fallback : String) (is_managed : Bool) :
    Service.fqdn s target fallback is_managed =
      fqdnSpec s.publicly_accessible fallback is_managed s.id s.sanitized_name
        target.environment.«namespace» ∧
    Database.fqdn db target fallback =
      fqdnSpec db.publicly_accessible fallback db.M_is_managed db.id db.kube_name
        target.environment.«namespace» := by
  constructor
  · cases h : s.publicly_accessible <;> cases is_managed <;>
      simp [Service.fqdn, fqdnSpec, h]
  · cases h : db.publicly_accessible <;> cases hm : db.M_is_managed <;>
      simp [Database.fqdn, fqdnSpec, Database.id, Database.kube_name, h, hm]

/-- C2 counterexample: a failed pipeline result tagged
`HelmChartsUpgradeError` passed through `check_kubernetes_service_error`
comes back tagged `K8sServiceError`, not with the original tag — the
wrapper does not carry the original error's tag. -/
theorem check_kubernetes_service_error_changes_tag :
    resultErrorTag (check_kubernetes_service_error
        (.error (EngineError.new .HelmChartsUpgradeError ⟨"exec-1", "Deploy"⟩
          "helm failed" (some ⟨"boom", some "details"⟩)))
        svcC2 ⟨"exec-1", "Deploy"⟩ [] "Deployment" .Deploy).1 =
      some ErrorTag.K8sServiceError ∧
    (EngineError.new .HelmChartsUpgradeError ⟨"exec-1", "Deploy"⟩
        "helm failed" (some ⟨"boom", some "details"⟩)).tag = ErrorTag.HelmChartsUpgradeError ∧
    ErrorTag.K8sServiceError ≠ ErrorTag.HelmChartsUpgradeError := by
  refine ⟨rfl, rfl, by decide⟩

/-- C2 amended: for every failed pipeline result, the error
`check_kubernetes_service_error` returns to the caller is tagged
`K8sServiceError` (not the original tag) and holds the original error's
underlying command error (or the empty default) as its detail; the
boundary translation (`io::EngineError::from`) then keeps that tag and
flattens the detail to its sanitized `{message, full_details}` pair. -/
theorem check_kubernetes_service_error_wraps_underlying
    (result : Except EngineError Unit) (err : EngineError) (s : ServiceData)
    (ed : EventDetails) (dl : List String) (verb : String) (a : CheckAction)
    (h : result = .error err) :
    (check_kubernetes_service_error result s ed dl verb a).1 =
      .error (EngineError.new_k8s_service_issue ed
        (err.underlying_error.getD CommandError.default)) ∧
    (EngineError.new_k8s_service_issue ed
        (err.underlying_error.getD CommandError.default)).tag = .K8sServiceError ∧
    (IoEngineError.from (EngineError.new_k8s_service_issue ed
        (err.underlying_error.getD CommandError.default))).1.tag = .K8sServiceError ∧
    (IoEngineError.from (EngineError.new_k8s_service_issue ed
        (err.underlying_error.getD CommandError.default))).1.underlying_error =
      some { message := (err.underlying_error.getD CommandError.default).message_safe,
             full_details :=
               ((err.underlying_error.getD CommandError.default).full_details).getD "" } := by
  subst h
  exact ⟨rfl, rfl, rfl, rfl⟩

/-- C2 witness: the amended behaviour at a concrete failed result. -/
theorem check_kubernetes_service_error_wraps_underlying_witness :
    (check_kubernetes_service_error
        (.error (EngineError.new .Unknown ⟨"e", "s"⟩ "m" (some ⟨"msg", some "fd"⟩)))
        svcC2 ⟨"e", "s"⟩ [] "Deployment" .Deploy).1 =
      .error (EngineError.new_k8s_service_issue ⟨"e", "s"⟩
        ((EngineError.new .Unknown ⟨"e", "s"⟩ "m"
          (some ⟨"msg", some "fd"⟩)).underlying_error.getD CommandError.default)) :=
  (check_kubernetes_service_error_wraps_underlying
    (.error (EngineError.new .Unknown ⟨"e", "s"⟩ "m" (some ⟨"msg", some "fd"⟩)))
    (EngineError.new .Unknown ⟨"e", "s"⟩ "m" (some ⟨"msg", some "fd"⟩))
    svcC2 ⟨"e", "s"⟩ [] "Deployment" .Deploy rfl).1

/-- C4: constructing a `Database` with an explicit instance type whose
cloud-provider tag differs from the database's own cloud provider fails
with `DatabaseInstanceTypeMismatchCloudProvider` and performs no side
effect at all (the empty effect trace: in particular the workspace
directory is not created), for every state of the filesystem; and when
the instance-type check passes, a workspace-directory creation failure
yields `InvalidConfig`. -/
theorem database_new_rejects_mismatched_instance_type
    (C_cloud_provider : Kind) (M_is_managed fs_ok : Bool) (context : Context)
    (long_id name kube_name version fqdn fqdn_id total_cpus : String)
    (total_ram_in_mib total_disk_size_in_gb : Nat) (it : DatabaseInstanceType)
    (publicly_accessible : Bool) (private_port : Nat)
    (h : it.cloud_provider ≠ C_cloud_provider) :
    Database.new C_cloud_provider M_is_managed fs_ok context long_id name kube_name
        version fqdn fqdn_id total_cpus total_ram_in_mib total_disk_size_in_gb
        (some it) publicly_accessible private_port =
      (.error (.DatabaseInstanceTypeMismatchCloudProvider it.to_cloud_provider_format
        C_cloud_provider), []) ∧
    (Database.new C_cloud_provider M_is_managed false context long_id name kube_name
        version fqdn fqdn_id total_cpus total_ram_in_mib total_disk_size_in_gb
        none publicly_accessible private_port).1 =
      .error (.InvalidConfig ("Can" ++ apo ++ "t create workspace directory")) := by
  constructor
  · simp [Database.new, Database.check_instance_type_validity, h]
  · simp [Database.new, fs_workspace_directory]

/-- C4 witness: a Scaleway-tagged instance type given to an AWS database
is rejected with no side effect, for a concrete input. -/
theorem database_new_rejects_mismatched_instance_type_witness :
    Database.new .Aws false true ⟨"/root", "exec-1", "/lib", none⟩
        "11111111-2222-3333-4444-555555555555" "db" "db-kube" "13" "db.example.com"
        "fqdn-id" "500m" 512 10 (some ⟨.Scw, "DEV1-S"⟩) false 5432 =
      (.error (.DatabaseInstanceTypeMismatchCloudProvider "DEV1-S" .Aws), []) :=
  (database_new_rejects_mismatched_instance_type .Aws false true
    ⟨"/root", "exec-1", "/lib", none⟩ "11111111-2222-3333-4444-555555555555" "db"
    "db-kube" "13" "db.example.com" "fqdn-id" "500m" 512 10 ⟨.Scw, "DEV1-S"⟩
    false 5432 (by decide)).1

/-- C9 counterexample: the directory a `Database` creates at
construction time is keyed by the service's long id
(`databases/{long_id}`, src/models/database.rs line 195), not by its
name as the claim states — for a database named `my-db` the two paths
differ. -/
theorem database_workspace_directory_uses_long_id_not_name :
    ((Database.new .Aws false true ⟨"/root", "exec-1", "/lib", none⟩
        "11111111-2222-3333-4444-555555555555" "my-db" "my-db-kube" "13"
        "db.example.com" "fqdn-id" "500m" 512 10 none false 5432).1.map
      (fun db => db.workspace_directory)) =
      .ok (fs_workspace_directory_path "/root" "exec-1"
        ("databases/" ++ "11111111-2222-3333-4444-555555555555")) ∧
    fs_workspace_directory_path "/root" "exec-1"
        ("databases/" ++ "11111111-2222-3333-4444-555555555555") ≠
      fs_workspace_directory_path "/root" "exec-1" ("databases/" ++ "my-db") := by
  refine ⟨rfl, by decide⟩

/-- C9 amended: `Service::workspace_directory` is derived
deterministically from the workspace root dir, the execution id and the
type-specific subpath `applications/{name}` / `databases/{name}` /
`routers/{name}`; the directory a `Database` instance creates at
construction time is keyed by `databases/{long_id}` instead of the
name. -/
theorem workspace_directory_derivation (s : ServiceData) (context : Context)
    (C_cloud_provider : Kind) (M_is_managed : Bool)
    (long_id name kube_name version fqdn fqdn_id total_cpus : String)
    (total_ram_in_mib total_disk_size_in_gb : Nat)
    (database_instance_type : Option DatabaseInstanceType)
    (publicly_accessible : Bool) (private_port : Nat) (db : DatabaseData)
    (h : (Database.new C_cloud_provider M_is_managed true context long_id name kube_name
        version fqdn fqdn_id total_cpus total_ram_in_mib total_disk_size_in_gb
        database_instance_type publicly_accessible private_port).1 = .ok db) :
    (s.service_type = .Application →
      Service.workspace_directory s context = fs_workspace_directory_path
        context.workspace_root_dir context.execution_id ("applications/" ++ s.name)) ∧
    (∀ t, s.service_type = .Database t →
      Service.workspace_directory s context = fs_workspace_directory_path
        context.workspace_root_dir context.execution_id ("databases/" ++ s.name)) ∧
    (s.service_type = .Router →
      Service.workspace_directory s context = fs_workspace_directory_path
        context.workspace_root_dir context.execution_id ("routers/" ++ s.name)) ∧
    db.workspace_directory = fs_workspace_directory_path
      context.workspace_root_dir context.execution_id ("databases/" ++ long_id) := by
  refine ⟨?_, ?_, ?_, ?_⟩
  · intro ht
    simp [Service.workspace_directory, workspace_directory_dir_root, ht]
  · intro t ht
    simp [Service.workspace_directory, workspace_directory_dir_root, ht]
  · intro ht
    simp [Service.workspace_directory, workspace_directory_dir_root, ht]
  · cases hdit : (database_instance_type.map
        (fun i => Database.check_instance_type_validity i C_cloud_provider)).getD
        (.ok ()) with
    | error e =>
      simp [Database.new, hdit] at h
    | ok u =>
      simp [Database.new, hdit, fs_workspace_directory] at h
      subst h
      rfl

/-- C9 witness: the amended derivation at a concrete application,
database service type and constructed database. -/
theorem workspace_directory_derivation_witness :
    Service.workspace_directory svcC2 ⟨"/root", "exec-1", "/lib", none⟩ =
      fs_workspace_directory_path "/root" "exec-1" ("applications/" ++ "my-app") :=
  ((workspace_directory_derivation svcC2 ⟨"/root", "exec-1", "/lib", none⟩ .Aws false
    "22222222-2222-3333-4444-555555555555" "db2" "db2-kube" "13" "db.example.com"
    "fqdn-id" "500m" 512 10 none false 5432
    { id := to_short_id "22222222-2222-3333-4444-555555555555",
      long_id := "22222222-2222-3333-4444-555555555555", name := "db2",
      kube_name := "db2-kube", version := "13", fqdn := "db.example.com",
      fqdn_id := "fqdn-id", total_cpus := "500m", total_ram_in_mib := 512,
      total_disk_size_in_gb := 10, publicly_accessible := false, private_port := 5432,
      workspace_directory := fs_workspace_directory_path "/root" "exec-1"
        ("databases/" ++ "22222222-2222-3333-4444-555555555555"),
      lib_root_directory := "/lib", M_is_managed := false }
    rfl).1) rfl

/-- C3: with one bound volume whose effective size parses to `size`, a
requested `total_disk_size_in_gb` strictly below `size` makes the
storage check fail with the invalid-payload error (and the check, a pure
read, mutates nothing); a requested size strictly above `size` returns
the matching PVC's name together with the required size; an equal size
yields neither (`Ok(None)`). -/
theorem storage_size_check (db : DatabaseData) (db_type : DatabaseType)
    (sts_lookup : Except EngineError (String × Option (List Pvc)))
    (extract_volume_size : String → Except String Nat)
    (pvc_lookup : Except CommandError (List Pvc))
    (ns : String) (event_details : EventDetails)
    (statefulset_name : String) (volume : Pvc) (spec : PvcSpec)
    (resources : VolumeResources) (q : String) (size : Nat)
    (hsts : sts_lookup = .ok (statefulset_name, some [volume]))
    (hspec : volume.spec = some spec)
    (hres : spec.resources = some resources)
    (hreq : resources.requests = some { storage := q })
    (hx : extract_volume_size q = .ok size) :
    (db.total_disk_size_in_gb < size →
      get_database_with_invalid_storage_size db db_type sts_lookup extract_volume_size
          pvc_lookup ns event_details =
        .error (EngineError.new_invalid_engine_payload event_details
          ("new storage size (" ++ toString db.total_disk_size_in_gb
            ++ ") should be equal or greater than actual size ("
            ++ toString size ++ ")") none)) ∧
    (∀ pvc rest pvc_name, db.total_disk_size_in_gb > size →
      pvc_lookup = .ok (pvc :: rest) → pvc.metadata.name = some pvc_name →
      get_database_with_invalid_storage_size db db_type sts_lookup extract_volume_size
          pvc_lookup ns event_details =
        .ok (some
          { service_type := .Database db_type,
            service_id := db.long_id,
            statefulset_selector := Database.kube_label_selector db,
            statefulset_name,
            invalid_pvcs := [{ pvc_name := pvc_name,
                               required_disk_size_in_gib := db.total_disk_size_in_gb }] })) ∧
    (db.total_disk_size_in_gb = size →
      get_database_with_invalid_storage_size db db_type sts_lookup extract_volume_size
          pvc_lookup ns event_details = .ok none) := by
  subst hsts
  refine ⟨?_, ?_, ?_⟩
  · intro hlt
    have hng : ¬ db.total_disk_size_in_gb > size := by omega
    simp [get_database_with_invalid_storage_size, hspec, hres, hreq, hx, hng, hlt]
  · intro pvc rest pvc_name hgt hpvc hname
    subst hpvc
    simp [get_database_with_invalid_storage_size, hspec, hres, hreq, hx, hgt, hname]
  · intro heq
    have hng : ¬ db.total_disk_size_in_gb > size := by omega
    have hnl : ¬ db.total_disk_size_in_gb < size := by omega
    simp [get_database_with_invalid_storage_size, hspec, hres, hreq, hx, hng, hnl]

/-- C3 witness: a redeploy asking for 10 GiB over a bound 20 GiB volume
is rejected with the invalid-payload error, at a concrete input. -/
theorem storage_size_check_witness :
    get_database_with_invalid_storage_size
        ⟨"zid", "lid", "db", "db-kube", "13", "fqdn", "fqdn-id", "500m", 512, 10,
          false, 5432, "wd", "/lib", false⟩
        .PostgreSQL (.ok ("sts-db", some [⟨⟨some "pvc-db"⟩, some ⟨some ⟨some ⟨"20Gi"⟩⟩⟩⟩]))
        (fun _ => .ok 20) (.ok []) "ns" ⟨"exec-1", "Deploy"⟩ =
      .error (EngineError.new_invalid_engine_payload ⟨"exec-1", "Deploy"⟩
        ("new storage size (" ++ toString (10 : Nat)
          ++ ") should be equal or greater than actual size ("
          ++ toString (20 : Nat) ++ ")") none) :=
  (storage_size_check
    ⟨"zid", "lid", "db", "db-kube", "13", "fqdn", "fqdn-id", "500m", 512, 10,
      false, 5432, "wd", "/lib", false⟩
    .PostgreSQL (.ok ("sts-db", some [⟨⟨some "pvc-db"⟩, some ⟨some ⟨some ⟨"20Gi"⟩⟩⟩⟩]))
    (fun _ => .ok 20) (.ok []) "ns" ⟨"exec-1", "Deploy"⟩
    "sts-db" ⟨⟨some "pvc-db"⟩, some ⟨some ⟨some ⟨"20Gi"⟩⟩⟩⟩ ⟨some ⟨some ⟨"20Gi"⟩⟩⟩
    ⟨some ⟨"20Gi"⟩⟩ "20Gi" 20 rfl rfl rfl rfl rfl).1 (by decide)

/-- C5: in a managed-database deployment whose earlier steps (context,
kubeconfig, namespace, helm client, the three renders, Terraform apply)
succeed: a parsed config file leads to the ExternalName chart being
helm-installed pointed at the endpoint it describes; a missing file
leads to overall success with no chart installation at all; an
unparseable file fails the deployment with the Terraform
config-mismatch error. -/
theorem stateful_managed_config_branching (o : StatefulOutcomes) (s : ServiceData)
    (context : Context) (environment : Environment) (event_details : EventDetails)
    (kc : String)
    (h1 : o.tera_context = .ok ()) (h2 : o.kubeconfig = .ok kc)
    (h3 : o.create_namespace = .ok ()) (h4 : o.helm_new = .ok ())
    (h5 : o.render_terraform_common = .ok ()) (h6 : o.render_terraform_resource = .ok ())
    (h7 : o.render_external_name = .ok ()) (h8 : o.terraform_apply = .ok ()) :
    (∀ c, o.terraform_config = .ok c → o.helm_upgrade_external = .ok () →
      (deploy_stateful_service true o s context environment event_details).1 = .ok () ∧
      Effect.helmUpgrade (c.target_id ++ "-externalname") (external_name_chart_values c s)
        ∈ (deploy_stateful_service true o s context environment event_details).2) ∧
    (∀ e, o.terraform_config = .error (.FileDoesntExist e) →
      (deploy_stateful_service true o s context environment event_details).1 = .ok () ∧
      ∀ name vals, Effect.helmUpgrade name vals
        ∉ (deploy_stateful_service true o s context environment event_details).2) ∧
    (∀ e, o.terraform_config = .error (.FileCannotBeParsed e) →
      (deploy_stateful_service true o s context environment event_details).1 =
        .error (EngineError.new_terraform_database_config_mismatch event_details e)) := by
  refine ⟨?_, ?_, ?_⟩
  · intro c hc hup
    constructor
    · simp [deploy_stateful_service, h1, h2, h3, h4, h5, h6, h7, h8, hc, hup]
    · simp [deploy_stateful_service, h1, h2, h3, h4, h5, h6, h7, h8, hc, hup]
  · intro e he
    constructor
    · simp [deploy_stateful_service, h1, h2, h3, h4, h5, h6, h7, h8, he]
    · intro name vals
      simp [deploy_stateful_service, h1, h2, h3, h4, h5, h6, h7, h8, he]
  · intro e he
    simp [deploy_stateful_service, h1, h2, h3, h4, h5, h6, h7, h8, he]

/-- C5 witness: with a concrete parsed config the managed deployment
succeeds and installs the ExternalName chart for that endpoint. -/
theorem stateful_managed_config_branching_witness :
    (deploy_stateful_service true outC5 svcC2 ⟨"/root", "exec-1", "/lib", none⟩
        ⟨"ns"⟩ ⟨"exec-1", "Deploy"⟩).1 = .ok () ∧
    Effect.helmUpgrade ("dbid" ++ "-externalname")
        (external_name_chart_values ⟨"dbid", "db.host.internal", "fqdn-id",
          "db.example.com"⟩ svcC2)
      ∈ (deploy_stateful_service true outC5 svcC2 ⟨"/root", "exec-1", "/lib", none⟩
        ⟨"ns"⟩ ⟨"exec-1", "Deploy"⟩).2 :=
  (stateful_managed_config_branching outC5 svcC2 ⟨"/root", "exec-1", "/lib", none⟩
    ⟨"ns"⟩ ⟨"exec-1", "Deploy"⟩ "kubeconfig" rfl rfl rfl rfl rfl rfl rfl rfl).1
    ⟨"dbid", "db.host.internal", "fqdn-id", "db.example.com"⟩ rfl rfl

/-- C6: in a containerized (non-managed) stateful deployment whose
earlier steps succeed, every readiness-poll outcome other than
`Ok(Some(true))` makes `deploy_stateful_service` return
`DatabaseFailedToStartAfterSeveralRetries` (carrying the wait error only
when the poll itself failed), while `Ok(Some(true))` succeeds; in a
stateless deployment whose earlier steps succeed, a failed readiness
poll is returned as the generic `K8sPodIsNotReady` error carrying the
underlying wait error. -/
theorem readiness_failure_reporting (o : StatefulOutcomes) (so : StatelessOutcomes)
    (s : ServiceData) (context : Context) (environment : Environment)
    (event_details : EventDetails) (kc skc : String)
    (h1 : o.tera_context = .ok ()) (h2 : o.kubeconfig = .ok kc)
    (h3 : o.create_namespace = .ok ()) (h4 : o.helm_new = .ok ())
    (h5 : o.render_chart = .ok ()) (h6 : o.render_values = .ok ())
    (h7 : o.helm_upgrade = .ok ())
    (h8 : (delete_pending_service o.pods o.delete_pod event_details).1 = .ok ())
    (g1 : so.tera_context = .ok ()) (g2 : so.render_chart = .ok ())
    (g3 : so.kubeconfig = .ok skc) (g4 : so.create_namespace = .ok ())
    (g5 : so.helm_new = .ok ()) (g6 : so.helm_upgrade = .ok ())
    (g7 : (delete_pending_service so.pods so.delete_pod event_details).1 = .ok ()) :
    (∀ r, o.pod_ready = r → r ≠ .ok (some true) →
      (deploy_stateful_service false o s context environment event_details).1 =
        .error (EngineError.new_database_failed_to_start_after_several_retries
          event_details (Service.name_with_id s) s.service_type.name
          (match r with | .error e => some e | _ => none))) ∧
    (o.pod_ready = .ok (some true) →
      (deploy_stateful_service false o s context environment event_details).1 =
        .ok ()) ∧
    (∀ e, so.pod_ready = .error e →
      (deploy_stateless_service so s context environment event_details).1 =
        .error (EngineError.new_k8s_pod_not_ready event_details
          (s.selector.getD "") environment.«namespace» e)) := by
  refine ⟨?_, ?_, ?_⟩
  · intro r hr hne
    match r with
    | .ok (some true) => exact absurd rfl hne
    | .ok (some false) =>
      simp [deploy_stateful_service, h1, h2, h3, h4, h5, h6, h7, h8, hr]
    | .ok none =>
      simp [deploy_stateful_service, h1, h2, h3, h4, h5, h6, h7, h8, hr]
    | .error e =>
      simp [deploy_stateful_service, h1, h2, h3, h4, h5, h6, h7, h8, hr]
  · intro hr
    simp [deploy_stateful_service, h1, h2, h3, h4, h5, h6, h7, h8, hr]
  · intro e hr
    simp [deploy_stateless_service, g1, g2, g3, g4, g5, g6, g7, hr]

/-- C6 witness: a concrete container database whose pods never become
ready is reported as `DatabaseFailedToStartAfterSeveralRetries`, and a
concrete stateless service whose readiness poll fails is reported as
`K8sPodIsNotReady`. -/
theorem readiness_failure_reporting_witness :
    (deploy_stateful_service false outC6 svcC2 ⟨"/root", "exec-1", "/lib", none⟩
        ⟨"ns"⟩ ⟨"exec-1", "Deploy"⟩).1 =
      .error (EngineError.new_database_failed_to_start_after_several_retries
        ⟨"exec-1", "Deploy"⟩ (Service.name_with_id svcC2) svcC2.service_type.name
        none) ∧
    (deploy_stateless_service soutC6 svcC2 ⟨"/root", "exec-1", "/lib", none⟩
        ⟨"ns"⟩ ⟨"exec-1", "Deploy"⟩).1 =
      .error (EngineError.new_k8s_pod_not_ready ⟨"exec-1", "Deploy"⟩
        (svcC2.selector.getD "") "ns" ⟨"wait timeout", none⟩) :=
  ⟨(readiness_failure_reporting outC6 soutC6 svcC2 ⟨"/root", "exec-1", "/lib", none⟩
      ⟨"ns"⟩ ⟨"exec-1", "Deploy"⟩ "kubeconfig" "kubeconfig" rfl rfl rfl rfl rfl rfl rfl
      rfl rfl rfl rfl rfl rfl rfl rfl).1 (.ok (some false)) rfl (by simp),
   (readiness_failure_reporting outC6 soutC6 svcC2 ⟨"/root", "exec-1", "/lib", none⟩
      ⟨"ns"⟩ ⟨"exec-1", "Deploy"⟩ "kubeconfig" "kubeconfig" rfl rfl rfl rfl rfl rfl rfl
      rfl rfl rfl rfl rfl rfl rfl rfl).2.2 ⟨"wait timeout", none⟩ rfl⟩

/-- C7 counterexample: a service whose version resolution succeeds with
the very string it requested (`latest`) still gets an error from
`check_service_version` — the `VersionsNumber` parse of `latest` fails,
so the function returns `VersionNumberParsingError` instead of a
successful `ServiceVersionCheckResult`. -/
theorem check_service_version_can_fail_on_ok_resolution :
    (check_service_version (.ok "latest") svcC7 ⟨"exec-1", "Deploy"⟩).1 =
      .error (EngineError.new_version_number_parsing_error ⟨"exec-1", "Deploy"⟩
        "latest" "latest") ∧
    (EngineError.new_version_number_parsing_error ⟨"exec-1", "Deploy"⟩
        "latest" "latest").tag = .VersionNumberParsingError := by
  constructor
  · rfl
  · rfl

/-- C7 amended: when version resolution succeeds and both the requested
and the resolved version strings parse as `VersionsNumber`s,
`check_service_version` returns a successful result whose message is
present exactly when the two strings differ (never an error); when
resolution fails, a `deployment_error` listener notification is emitted
and the `UnsupportedVersion` error is returned; a version string that
does not parse yields `VersionNumberParsingError` even on successful
resolution. -/
theorem check_service_version_behaviour (s : ServiceData) (ed : EventDetails)
    (version : String) (rv mv : VersionsNumber) (ce : CommandError)
    (hreq : VersionsNumber.from_str s.version = .ok rv)
    (hmat : VersionsNumber.from_str version = .ok mv) :
    (check_service_version (.ok version) s ed).1 =
      .ok { requested_version := rv, matched_version := mv,
            message := if s.version = version then none
              else some (s.service_type.name ++ " version " ++ btick ++ s.version
                ++ btick ++ " has been requested by the user; but matching version is "
                ++ btick ++ version ++ btick) } ∧
    check_service_version (.error ce) s ed =
      (.error (EngineError.new_unsupported_version_error ed s.service_type.name
        s.version),
       [Effect.listenerDeploymentError (s.service_type.name ++ " version " ++ s.version
          ++ " is not supported!"),
        Effect.logError (EngineError.new_unsupported_version_error ed
          s.service_type.name s.version).user_log_message]) := by
  constructor
  · by_cases h : s.version = version
    · subst h
      rw [hreq] at hmat
      injection hmat with h2
      subst h2
      simp [check_service_version, hreq]
    · simp [check_service_version, h, hreq, hmat]
  · rfl

/-- C7 witness: the amended behaviour at concrete inputs — requested
`1.0`, resolved `1.2`: success with a message; and a failed resolution
returning `UnsupportedVersion` after the listener notification. -/
theorem check_service_version_behaviour_witness :
    (check_service_version (.ok "1.2") svcC2 ⟨"exec-1", "Deploy"⟩).1 =
      .ok { requested_version := ⟨1, some 0, none⟩, matched_version := ⟨1, some 2, none⟩,
            message := if svcC2.version = "1.2" then none
              else some (svcC2.service_type.name ++ " version " ++ btick ++ svcC2.version
                ++ btick ++ " has been requested by the user; but matching version is "
                ++ btick ++ "1.2" ++ btick) } ∧
    check_service_version (.error ⟨"not allowed", none⟩) svcC2 ⟨"exec-1", "Deploy"⟩ =
      (.error (EngineError.new_unsupported_version_error ⟨"exec-1", "Deploy"⟩
        svcC2.service_type.name svcC2.version),
       [Effect.listenerDeploymentError (svcC2.service_type.name ++ " version "
          ++ svcC2.version ++ " is not supported!"),
        Effect.logError (EngineError.new_unsupported_version_error ⟨"exec-1", "Deploy"⟩
          svcC2.service_type.name svcC2.version).user_log_message]) :=
  check_service_version_behaviour svcC2 ⟨"exec-1", "Deploy"⟩ "1.2"
    ⟨1, some 0, none⟩ ⟨1, some 2, none⟩ ⟨"not allowed", none⟩ rfl rfl

/-- C8: in a managed-database delete whose context and renders succeed,
a successful Terraform destroy is followed by the (best-effort) deletion
of the Kubernetes secret `tfstate-default-{id}` — and the overall delete
succeeds for every kubeconfig/secret-deletion outcome; a failed destroy
returns the Terraform-destroy error and no secret deletion is ever
attempted. -/
theorem managed_delete_tfstate_secret (o : DeleteStatefulOutcomes) (s : ServiceData)
    (context : Context) (environment : Environment) (event_details : EventDetails)
    (h1 : o.tera_context = .ok ()) (h2 : o.render_terraform_common = .ok ())
    (h3 : o.render_terraform_resource = .ok ()) (h4 : o.render_external_name_svc = .ok ())
    (h5 : o.render_external_name_workspace = .ok ()) :
    (o.terraform_destroy = .ok () →
      (delete_stateful_service true o s context environment event_details).1 = .ok () ∧
      (∀ kc, o.kubeconfig = .ok kc →
        Effect.deleteSecret environment.«namespace» ("tfstate-default-" ++ s.id)
          ∈ (delete_stateful_service true o s context environment event_details).2)) ∧
    (∀ e, o.terraform_destroy = .error e →
      (delete_stateful_service true o s context environment event_details).1 =
        .error (EngineError.new_terraform_error_while_executing_destroy_pipeline
          event_details e) ∧
      ∀ ns sec, Effect.deleteSecret ns sec
        ∉ (delete_stateful_service true o s context environment event_details).2) := by
  constructor
  · intro hd
    constructor
    · simp [delete_stateful_service, h1, h2, h3, h4, h5, hd,
        delete_terraform_tfstate_secret]
    · intro kc hkc
      simp [delete_stateful_service, h1, h2, h3, h4, h5, hd,
        delete_terraform_tfstate_secret, hkc, get_tfstate_name]
  · intro e hd
    constructor
    · simp [delete_stateful_service, h1, h2, h3, h4, h5, hd]
    · intro ns sec
      simp [delete_stateful_service, h1, h2, h3, h4, h5, hd]

/-- C8 witness: a concrete managed delete whose destroy succeeds while
the secret deletion itself fails still succeeds overall, and the
tfstate secret deletion for `tfstate-default-app1` was attempted. -/
theorem managed_delete_tfstate_secret_witness :
    (delete_stateful_service true outC8 svcC2 ⟨"/root", "exec-1", "/lib", none⟩
        ⟨"ns"⟩ ⟨"exec-1", "Delete"⟩).1 = .ok () ∧
    Effect.deleteSecret "ns" ("tfstate-default-" ++ "app1")
      ∈ (delete_stateful_service true outC8 svcC2 ⟨"/root", "exec-1", "/lib", none⟩
        ⟨"ns"⟩ ⟨"exec-1", "Delete"⟩).2 :=
  ⟨((managed_delete_tfstate_secret outC8 svcC2 ⟨"/root", "exec-1", "/lib", none⟩
      ⟨"ns"⟩ ⟨"exec-1", "Delete"⟩ rfl rfl rfl rfl rfl).1 rfl).1,
   ((managed_delete_tfstate_secret outC8 svcC2 ⟨"/root", "exec-1", "/lib", none⟩
      ⟨"ns"⟩ ⟨"exec-1", "Delete"⟩ rfl rfl rfl rfl rfl).1 rfl).2 "kubeconfig" rfl⟩

/-- Helper: when every `Pending` pod's deletion succeeds, the pod loop
succeeds and its trace is exactly one deletion per `Pending` pod, in
listing order — pods in any other phase produce no effect. -/
theorem delete_pending_pods_all_ok (dp : Pod → Except CommandError Unit)
    (ed : EventDetails) (items : List Pod)
    (h : ∀ p ∈ items, p.status.phase = .Pending → dp p = .ok ()) :
    delete_pending_pods dp ed items =
      (.ok (), (items.filter (fun p => p.status.phase == .Pending)).map
        (fun p => Effect.deletePod p.metadata.«namespace» p.metadata.name)) := by
  induction items with
  | nil => rfl
  | cons q rest ih =>
    have hrest := ih (fun p hp hpend => h p (List.mem_cons_of_mem q hp) hpend)
    by_cases hq : q.status.phase = .Pending
    · have hd := h q (List.mem_cons_self q rest) hq
      simp [delete_pending_pods, hq, hd, hrest, List.filter_cons]
    · simp [delete_pending_pods, hq, hrest, List.filter_cons]

/-- Helper: if the pod loop returned success then every `Pending` pod's
deletion succeeded (contrapositive: a failed deletion of any `Pending`
pod makes the loop return an error). -/
theorem delete_pending_pods_ok_all (dp : Pod → Except CommandError Unit)
    (ed : EventDetails) (items : List Pod) :
    (delete_pending_pods dp ed items).1 = .ok () →
      ∀ p ∈ items, p.status.phase = .Pending → dp p = .ok () := by
  induction items with
  | nil =>
    intro _ p hp
    simp at hp
  | cons q rest ih =>
    intro h p hp hpend
    by_cases hq : q.status.phase = .Pending
    · cases hdq : dp q with
      | error e => simp [delete_pending_pods, hq, hdq] at h
      | ok u =>
        cases u
        have hrest : (delete_pending_pods dp ed rest).1 = .ok () := by
          simpa [delete_pending_pods, hq, hdq] using h
        rcases List.mem_cons.mp hp with rfl | hmem
        · exact hdq
        · exact ih hrest p hmem hpend
    · have hrest : (delete_pending_pods dp ed rest).1 = .ok () := by
        simpa [delete_pending_pods, hq] using h
      rcases List.mem_cons.mp hp with rfl | hmem
      · exact absurd hpend hq
      · exact ih hrest p hmem hpend

/-- C10: the pending-pod cleanup deletes exactly the pods whose status
phase is `Pending` (one deletion effect per `Pending` pod, in order,
none for any other phase); a pod-listing failure makes it return a
`K8sServiceError`; a failed deletion of any `Pending` pod makes it
return an error (success implies every such deletion succeeded); and
both the stateless pipeline and the containerized stateful pipeline
abort with that error instead of continuing. -/
theorem pending_pod_cleanup (dp : Pod → Except CommandError Unit) (ed : EventDetails)
    (items : List Pod) (so : StatelessOutcomes) (o : StatefulOutcomes)
    (s : ServiceData) (context : Context) (environment : Environment) (skc kc : String)
    (g1 : so.tera_context = .ok ()) (g2 : so.render_chart = .ok ())
    (g3 : so.kubeconfig = .ok skc) (g4 : so.create_namespace = .ok ())
    (g5 : so.helm_new = .ok ()) (g6 : so.helm_upgrade = .ok ())
    (h1 : o.tera_context = .ok ()) (h2 : o.kubeconfig = .ok kc)
    (h3 : o.create_namespace = .ok ()) (h4 : o.helm_new = .ok ())
    (h5 : o.render_chart = .ok ()) (h6 : o.render_values = .ok ())
    (h7 : o.helm_upgrade = .ok ()) :
    (∀ e, delete_pending_service (.error e) dp ed =
      (.error (EngineError.new_k8s_service_issue ed e), [])) ∧
    ((∀ p ∈ items, p.status.phase = .Pending → dp p = .ok ()) →
      delete_pending_service (.ok items) dp ed =
        (.ok (), (items.filter (fun p => p.status.phase == .Pending)).map
          (fun p => Effect.deletePod p.metadata.«namespace» p.metadata.name))) ∧
    ((delete_pending_service (.ok items) dp ed).1 = .ok () →
      ∀ p ∈ items, p.status.phase = .Pending → dp p = .ok ()) ∧
    (∀ err, (delete_pending_service so.pods so.delete_pod ed).1 = .error err →
      (deploy_stateless_service so s context environment ed).1 = .error err) ∧
    (∀ err, (delete_pending_service o.pods o.delete_pod ed).1 = .error err →
      (deploy_stateful_service false o s context environment ed).1 = .error err) := by
  refine ⟨?_, ?_, ?_, ?_, ?_⟩
  · intro e
    rfl
  · intro h
    exact delete_pending_pods_all_ok dp ed items h
  · intro h
    exact delete_pending_pods_ok_all dp ed items h
  · intro err herr
    simp [deploy_stateless_service, g1, g2, g3, g4, g5, g6, herr]
  · intro err herr
    simp [deploy_stateful_service, h1, h2, h3, h4, h5, h6, h7, herr]

/-- C10 witness: with one `Pending` and one `Running` pod and successful
deletions, the cleanup deletes exactly the `Pending` pod. -/
theorem pending_pod_cleanup_witness :
    delete_pending_service
        (.ok [⟨⟨"pod-a", "ns"⟩, ⟨.Pending⟩⟩, ⟨⟨"pod-b", "ns"⟩, ⟨.Running⟩⟩])
        (fun _ => .ok ()) ⟨"exec-1", "Deploy"⟩ =
      (.ok (), [Effect.deletePod "ns" "pod-a"]) := by
  have h := (pending_pod_cleanup (fun _ => .ok ()) ⟨"exec-1", "Deploy"⟩
    [⟨⟨"pod-a", "ns"⟩, ⟨.Pending⟩⟩, ⟨⟨"pod-b", "ns"⟩, ⟨.Running⟩⟩]
    soutC6 outC5 svcC2 ⟨"/root", "exec-1", "/lib", none⟩ ⟨"ns"⟩
    "kubeconfig" "kubeconfig" rfl rfl rfl rfl rfl rfl rfl rfl rfl rfl rfl rfl
    rfl).2.1 (fun p _ _ => rfl)
  simpa using h
